import Mathlib

/-!
Verification development for the AdaptLearn learning-management front end.

The progress aggregator (`ProgressDashboard`), the course completion
percentages (`CourseDetail`, `CourseCard`) and the lesson/quiz session state
machine (`LessonView`) are embedded shallowly: component state becomes a
structure, event handlers become pure functions returning the new state
together with the database writes they issue, and timestamps are natural
numbers of milliseconds since the epoch (the value of `Date.now()`).
-/

namespace AdaptLearn

/-- JavaScript `Math.round` applied to the nonnegative rational `num / den`:
round half up, i.e. `⌊num/den + 1/2⌋`, which in natural-number division is
`(2*num + den) / (2*den)`. -/
def jsRound (num den : ℕ) : ℕ :=
  (2 * num + den) / (2 * den)

/-- Row of the `user_progress` table (type `UserProgress` in
`src/lib/supabase.ts`). `completed_at` is the optional column; timestamp
columns hold milliseconds since the epoch. The `started_at` column is never
written by the components modelled here and is omitted. -/
structure UserProgress where
  id : String
  user_id : String
  lesson_id : String
  course_id : String
  status : String
  completion_percentage : ℕ
  time_spent_minutes : ℕ
  completed_at : Option ℕ
  last_accessed_at : ℕ
deriving DecidableEq, Repr

/-- Course row; only the fields the aggregator reads. -/
structure Course where
  id : String
  title : String
deriving DecidableEq, Repr

/-- Lesson row; only the fields the modelled components read. -/
structure Lesson where
  id : String
  course_id : String
  content_type : String
deriving DecidableEq, Repr

/-- Assessment row; only the fields `handleAnswerSubmit` reads. -/
structure Assessment where
  id : String
  correct_answer : String
deriving DecidableEq, Repr

/-- Row inserted into `user_assessments` by `handleAnswerSubmit`
(part_001 lines 376-382). -/
structure UserAssessmentAttempt where
  user_id : String
  assessment_id : String
  user_answer : String
  is_correct : Bool
  time_taken_seconds : ℕ
deriving DecidableEq, Repr

/-- `calculateWeeklyStats` of `ProgressDashboard` (part_000 lines 11-23):
`oneWeekAgo` is the instant seven 24-hour days before `now`; the filter
compares with `>=`; the first component counts `completed` records among the
filtered ones, the second sums `time_spent_minutes` over all filtered
records. -/
def calculateWeeklyStats (userProgress : List UserProgress) (now : ℕ) : ℕ × ℕ :=
  let oneWeekAgo := now - 7 * 86400000
  let weeklyProgress := userProgress.filter (fun p => oneWeekAgo ≤ p.last_accessed_at)
  let lessonsThisWeek := (weeklyProgress.filter (fun p => p.status == "completed")).length
  let minutesThisWeek := weeklyProgress.foldl (fun sum p => sum + p.time_spent_minutes) 0
  (lessonsThisWeek, minutesThisWeek)

/-- `getCourseProgress` of `ProgressDashboard` (part_000 lines 25-30):
`Math.round((completed / total) * 100)` over the records of one course,
`0` when the course has no records. -/
def getCourseProgress (userProgress : List UserProgress) (courseId : String) : ℕ :=
  let courseProgress := userProgress.filter (fun p => p.course_id == courseId)
  let completed := (courseProgress.filter (fun p => p.status == "completed")).length
  let total := courseProgress.length
  if 0 < total then jsRound (completed * 100) total else 0

/-- `activeCourses` of `ProgressDashboard` (part_000 lines 36-38). -/
def activeCourses (courses : List Course) (userProgress : List UserProgress) : List Course :=
  courses.filter (fun course =>
    userProgress.any (fun p => p.course_id == course.id && p.status != "not_started"))

/-- `progressPercentage` of `CourseCard` (CourseCard.tsx lines 11-13), over
the `progress` prop; the dashboard passes `userProgress` filtered to the
card's course (part_001 line 197). -/
def cardProgressPercentage (progress : List UserProgress) : ℕ :=
  let completedLessons := (progress.filter (fun p => p.status == "completed")).length
  let totalLessons := progress.length
  if 0 < totalLessons then jsRound (completedLessons * 100) totalLessons else 0

/-- `progressPercentage` of `CourseDetail` (CourseDetail.tsx lines 93-94):
`userProgress` is the fetch filtered to the user and the course, `lessons`
the course's lesson list; the denominator is `lessons.length`. -/
def detailProgressPercentage (userProgress : List UserProgress) (lessons : List Lesson) : ℕ :=
  let completedCount := (userProgress.filter (fun p => p.status == "completed")).length
  if 0 < lessons.length then jsRound (completedCount * 100) lessons.length else 0

/-- Number of records of course `cid` in the snapshot (spec-side count, used
to state properties of the percentage functions). -/
def courseRecordCount (userProgress : List UserProgress) (cid : String) : ℕ :=
  (userProgress.filter (fun p => p.course_id == cid)).length

/-- Number of `completed` records of course `cid` in the snapshot. -/
def completedCount (userProgress : List UserProgress) (cid : String) : ℕ :=
  ((userProgress.filter (fun p => p.course_id == cid)).filter
    (fun p => p.status == "completed")).length

/-- The partial row assembled by `updateProgress` in `LessonView`
(`progressData`, part_001 lines 327-338): `timeSpent` is
`Math.round((Date.now() - startTime) / 60000)`, and `completed_at` is present
in the object only when `status = "completed"` (the conditional spread on
line 337). -/
structure ProgressData where
  user_id : String
  lesson_id : String
  course_id : String
  status : String
  completion_percentage : ℕ
  time_spent_minutes : ℕ
  last_accessed_at : ℕ
  completed_at : Option ℕ
deriving DecidableEq, Repr

/-- Builds the `progressData` object of `updateProgress`
(part_001 lines 327-338). -/
def progressData (userId lessonId courseId : String) (startTime now : ℕ)
    (status : String) (completionPercentage : ℕ) : ProgressData :=
  let timeSpent := jsRound (now - startTime) 60000
  { user_id := userId
    lesson_id := lessonId
    course_id := courseId
    status := status
    completion_percentage := completionPercentage
    time_spent_minutes := timeSpent
    last_accessed_at := now
    completed_at := if status = "completed" then some now else none }

/-- Supabase `.update(progressData).eq('id', existing.id)` on one row
(part_001 lines 348-351): every column present in the payload is
overwritten; `completed_at`, absent from the payload unless
`status = "completed"`, keeps its stored value; `id` is untouched. -/
def applyUpdate (existing : UserProgress) (d : ProgressData) : UserProgress :=
  { id := existing.id
    user_id := d.user_id
    lesson_id := d.lesson_id
    course_id := d.course_id
    status := d.status
    completion_percentage := d.completion_percentage
    time_spent_minutes := d.time_spent_minutes
    completed_at := match d.completed_at with
      | some t => some t
      | none => existing.completed_at
    last_accessed_at := d.last_accessed_at }

/-- Supabase `.insert(progressData)` (part_001 line 353); `newId` stands for
the row id the store generates. -/
def insertRow (newId : String) (d : ProgressData) : UserProgress :=
  { id := newId
    user_id := d.user_id
    lesson_id := d.lesson_id
    course_id := d.course_id
    status := d.status
    completion_percentage := d.completion_percentage
    time_spent_minutes := d.time_spent_minutes
    completed_at := d.completed_at
    last_accessed_at := d.last_accessed_at }

/-- The read-check-then-update-or-insert sequence of `updateProgress`
(part_001 lines 340-354): `maybeSingle` on `(user_id, lesson_id)`, then
update by `id` if a row exists, else insert. -/
def upsertProgress (store : List UserProgress) (newId : String) (d : ProgressData) :
    List UserProgress :=
  match store.find? (fun r => r.user_id == d.user_id && r.lesson_id == d.lesson_id) with
  | some existing => store.map (fun r => if r.id == existing.id then applyUpdate r d else r)
  | none => store ++ [insertRow newId d]

/-- Component state of `LessonView` (part_001 lines 297-306) together with
the identities the handlers close over (`user`, `lesson`, `course`). -/
structure Session where
  userId : String
  lessonId : String
  courseId : String
  assessments : List Assessment
  currentQuestion : ℕ
  selectedAnswer : String
  showExplanation : Bool
  isCorrect : Option Bool
  quizCompleted : Bool
  score : ℕ
  startTime : ℕ
deriving DecidableEq, Repr

/-- The state `LessonView` mounts with (part_001 lines 300-306). -/
def initialSession (userId lessonId courseId : String) (assessments : List Assessment)
    (startTime : ℕ) : Session :=
  { userId := userId
    lessonId := lessonId
    courseId := courseId
    assessments := assessments
    currentQuestion := 0
    selectedAnswer := ""
    showExplanation := false
    isCorrect := none
    quizCompleted := false
    score := 0
    startTime := startTime }

/-- The progress upsert issued on session open (the `useEffect`, part_001
lines 308-313): `updateProgress('in_progress', 0)` at instant `now`. -/
def openProgressUpsert (s : Session) (now : ℕ) : ProgressData :=
  progressData s.userId s.lessonId s.courseId s.startTime now "in_progress" 0

/-- `handleCompleteLesson` (part_001 lines 357-360):
`updateProgress('completed', 100)`. -/
def handleCompleteLesson (s : Session) (now : ℕ) : ProgressData :=
  progressData s.userId s.lessonId s.courseId s.startTime now "completed" 100

/-- `handleAnswerSubmit` (part_001 lines 362-386). Returns the new component
state, the `user_assessments` insert and the progress upsert;
`(s, none, none)` on the `!selectedAnswer` guard. The out-of-range lookup
branch is unreachable in the rendered UI (the quiz panel requires
`assessments.length > 0` and keeps `currentQuestion` in range). -/
def handleAnswerSubmit (s : Session) (now : ℕ) :
    Session × Option UserAssessmentAttempt × Option ProgressData :=
  if s.selectedAnswer = "" then (s, none, none)
  else
    match s.assessments.get? s.currentQuestion with
    | none => (s, none, none)
    | some currentAssessment =>
        let correct := s.selectedAnswer == currentAssessment.correct_answer
        let s1 := { s with
          isCorrect := some correct
          showExplanation := true
          score := if correct then s.score + 1 else s.score }
        let timeTaken := jsRound (now - s.startTime) 1000
        let attempt : UserAssessmentAttempt :=
          { user_id := s.userId
            assessment_id := currentAssessment.id
            user_answer := s.selectedAnswer
            is_correct := correct
            time_taken_seconds := timeTaken }
        let progress := jsRound ((s.currentQuestion + 1) * 100) s.assessments.length
        (s1, some attempt,
          some (progressData s.userId s.lessonId s.courseId s.startTime now
            "in_progress" progress))

/-- `handleNextQuestion` (part_001 lines 388-398). -/
def handleNextQuestion (s : Session) (now : ℕ) : Session × Option ProgressData :=
  if s.currentQuestion < s.assessments.length - 1 then
    ({ s with
        currentQuestion := s.currentQuestion + 1
        selectedAnswer := ""
        showExplanation := false
        isCorrect := none }, none)
  else
    ({ s with quizCompleted := true },
      some (progressData s.userId s.lessonId s.courseId s.startTime now "completed" 100))

/-- Driver: one full question interaction in the quiz UI — select an answer,
submit (`handleAnswerSubmit`), then advance (`handleNextQuestion`) —
collecting the writes both handlers issue. -/
def answerAndAdvance (s : Session) (ans : String) (tSubmit tNext : ℕ) :
    Session × List UserAssessmentAttempt × List ProgressData :=
  let s1 := { s with selectedAnswer := ans }
  let r := handleAnswerSubmit s1 tSubmit
  let r2 := handleNextQuestion r.1 tNext
  (r2.1, r.2.1.toList, r.2.2.toList ++ r2.2.toList)

/-- Driver: play a list of answers through the quiz, one
`answerAndAdvance` per answer, all at instant `now`. -/
def runAnswers (s : Session) (answers : List String) (now : ℕ) :
    Session × List UserAssessmentAttempt × List ProgressData :=
  match answers with
  | [] => (s, [], [])
  | ans :: rest =>
      let r := answerAndAdvance s ans now now
      let r2 := runAnswers r.1 rest now
      (r2.1, r.2.1 ++ r2.2.1, r.2.2 ++ r2.2.2)

/-! ### Rounding bridge: `jsRound` is round-half-up on the exact rational -/

theorem natCast_div_eq_floor (m n : ℕ) : ((m / n : ℕ) : ℤ) = ⌊(m : ℚ) / n⌋ := by
  rw [← Int.natCast_floor_eq_floor (by positivity), Nat.floor_div_nat, Nat.floor_natCast]

theorem jsRound_eq_round (a b : ℕ) (hb : b ≠ 0) :
    (jsRound a b : ℤ) = round ((a : ℚ) / b) := by
  have hbq : (b : ℚ) ≠ 0 := Nat.cast_ne_zero.mpr hb
  have key : (a : ℚ) / b + 1 / 2 = ((2 * a + b : ℕ) : ℚ) / ((2 * b : ℕ) : ℚ) := by
    push_cast
    field_simp
    ring
  rw [round_eq, key, ← natCast_div_eq_floor]
  rfl

theorem jsRound_hundred_le (c t : ℕ) (hc : c ≤ t) (ht : t ≠ 0) :
    jsRound (c * 100) t ≤ 100 := by
  have h2 : 0 < 2 * t := by omega
  have : (2 * (c * 100) + t) / (2 * t) < 101 := by
    rw [Nat.div_lt_iff_lt_mul h2]
    omega
  unfold jsRound
  omega

theorem foldl_add_eq_sum (f : UserProgress → ℕ) (l : List UserProgress) (init : ℕ) :
    l.foldl (fun sum p => sum + f p) init = init + (l.map f).sum := by
  induction l generalizing init with
  | nil => simp
  | cons a t ih => simp [List.foldl_cons, ih, Nat.add_assoc]

/-! ### Claim theorems -/

/-- C4: `weeklyStats` filters the records to those whose `lastAccessedAt` is
at least the instant seven days before `now` (inclusive boundary, `≥`),
returns as first component the count of filtered records with
`status = completed`, as second component the sum of `timeSpentMinutes` over
all filtered records regardless of status, and returns `(0, 0)` on the empty
list. -/
theorem calculateWeeklyStats_spec (ups : List UserProgress) (now : ℕ) :
    (calculateWeeklyStats ups now).1 =
      (ups.filter (fun p =>
        (p.status == "completed") && decide (now - 7 * 86400000 ≤ p.last_accessed_at))).length
    ∧ (calculateWeeklyStats ups now).2 =
      ((ups.filter (fun p => now - 7 * 86400000 ≤ p.last_accessed_at)).map
        (fun p => p.time_spent_minutes)).sum
    ∧ calculateWeeklyStats [] now = (0, 0) := by
  refine ⟨?_, ?_, rfl⟩
  · simp only [calculateWeeklyStats, List.filter_filter]
  · simp only [calculateWeeklyStats]
    rw [foldl_add_eq_sum]
    simp

theorem getCourseProgress_eq (ups : List UserProgress) (cid : String) :
    getCourseProgress ups cid =
      if 0 < courseRecordCount ups cid then
        jsRound (completedCount ups cid * 100) (courseRecordCount ups cid)
      else 0 := rfl

/-- C5: `courseCompletionPercent` (`getCourseProgress`) filters the records
to the given course and returns the completed fraction as a percentage with
round-half-up rounding (Mathlib's `round` on the exact rational), returns `0`
when the course has no records, always lies in `[0, 100]`, and yields `67`
for 2 completed of 3 records. -/
theorem getCourseProgress_spec (ups : List UserProgress) (cid : String) :
    (courseRecordCount ups cid ≠ 0 →
      (getCourseProgress ups cid : ℤ) =
        round ((100 * (completedCount ups cid) : ℚ) / (courseRecordCount ups cid)))
    ∧ (courseRecordCount ups cid = 0 → getCourseProgress ups cid = 0)
    ∧ 0 ≤ getCourseProgress ups cid
    ∧ getCourseProgress ups cid ≤ 100
    ∧ getCourseProgress
        [⟨"p1", "u", "l1", "c1", "completed", 100, 4, some 9, 9⟩,
         ⟨"p2", "u", "l2", "c1", "completed", 100, 4, some 9, 9⟩,
         ⟨"p3", "u", "l3", "c1", "in_progress", 50, 4, none, 9⟩] "c1" = 67 := by
  have hle : completedCount ups cid ≤ courseRecordCount ups cid :=
    List.length_filter_le _ _
  refine ⟨?_, ?_, Nat.zero_le _, ?_, by decide⟩
  · intro ht
    rw [getCourseProgress_eq, if_pos (Nat.pos_of_ne_zero ht), jsRound_eq_round _ _ ht]
    congr 1
    push_cast
    ring
  · intro ht
    rw [getCourseProgress_eq, if_neg (by omega)]
  · rw [getCourseProgress_eq]
    split
    · exact jsRound_hundred_le _ _ hle (by omega)
    · omega

/-- C5 witness: the round-half-up characterisation applied to the concrete
2-of-3 snapshot. -/
theorem getCourseProgress_spec_witness :
    (getCourseProgress
        [⟨"p1", "u", "l1", "c1", "completed", 100, 4, some 9, 9⟩,
         ⟨"p2", "u", "l2", "c1", "completed", 100, 4, some 9, 9⟩,
         ⟨"p3", "u", "l3", "c1", "in_progress", 50, 4, none, 9⟩] "c1" : ℤ) =
      round ((100 * (completedCount
        [⟨"p1", "u", "l1", "c1", "completed", 100, 4, some 9, 9⟩,
         ⟨"p2", "u", "l2", "c1", "completed", 100, 4, some 9, 9⟩,
         ⟨"p3", "u", "l3", "c1", "in_progress", 50, 4, none, 9⟩] "c1") : ℚ) /
        (courseRecordCount
        [⟨"p1", "u", "l1", "c1", "completed", 100, 4, some 9, 9⟩,
         ⟨"p2", "u", "l2", "c1", "completed", 100, 4, some 9, 9⟩,
         ⟨"p3", "u", "l3", "c1", "in_progress", 50, 4, none, 9⟩] "c1")) :=
  (getCourseProgress_spec _ "c1").1 (by decide)

/-- C6: `activeCourses` returns exactly the input courses that have at least
one progress record with matching `courseId` and status distinct from
`not_started`, and the result is a sublist of the input course list (input
order preserved). -/
theorem activeCourses_spec (courses : List Course) (ups : List UserProgress) :
    (∀ course : Course,
      course ∈ activeCourses courses ups ↔
        course ∈ courses ∧ ∃ p ∈ ups, p.course_id = course.id ∧ p.status ≠ "not_started")
    ∧ List.Sublist (activeCourses courses ups) courses := by
  constructor
  · intro course
    unfold activeCourses
    rw [List.mem_filter, List.any_eq_true]
    simp only [Bool.and_eq_true, beq_iff_eq, bne_iff_ne, ne_eq]
  · exact List.filter_sublist _

/-- C7: submitting with an empty selected answer is a no-op — the session
state is returned unchanged and neither an attempt insert nor a progress
upsert is issued. -/
theorem handleAnswerSubmit_empty (s : Session) (now : ℕ) (h : s.selectedAnswer = "") :
    handleAnswerSubmit s now = (s, none, none) := by
  unfold handleAnswerSubmit
  rw [if_pos h]

/-- C7 witness: the no-op at a freshly opened quiz session. -/
theorem handleAnswerSubmit_empty_witness :
    handleAnswerSubmit (initialSession "u" "l" "c" [⟨"a1", "x"⟩] 0) 5 =
      (initialSession "u" "l" "c" [⟨"a1", "x"⟩] 0, none, none) :=
  handleAnswerSubmit_empty _ 5 rfl

/-- C8: submitting a non-empty answer compares it to the current
assessment's `correctAnswer` by exact string equality, records exactly one
`UserAssessmentAttempt` carrying that answer and verdict, increments the
session score by 1 iff the comparison holds, and issues a progress upsert
with `status = in_progress` and
`completionPercentage = round(100*(i+1)/totalQuestions)`. -/
theorem handleAnswerSubmit_spec (s : Session) (now : ℕ) (a : Assessment)
    (hne : s.selectedAnswer ≠ "")
    (ha : s.assessments.get? s.currentQuestion = some a) :
    ∃ att pd, (handleAnswerSubmit s now).2.1 = some att
      ∧ (handleAnswerSubmit s now).2.2 = some pd
      ∧ (att.is_correct = true ↔ s.selectedAnswer = a.correct_answer)
      ∧ att.assessment_id = a.id
      ∧ att.user_answer = s.selectedAnswer
      ∧ att.user_id = s.userId
      ∧ ((handleAnswerSubmit s now).1.score = s.score + 1 ↔
          s.selectedAnswer = a.correct_answer)
      ∧ ((handleAnswerSubmit s now).1.score = s.score ↔
          s.selectedAnswer ≠ a.correct_answer)
      ∧ pd.status = "in_progress"
      ∧ (pd.completion_percentage : ℤ) =
          round ((100 * ((s.currentQuestion : ℚ) + 1)) / (s.assessments.length : ℚ)) := by
  have hlt : s.currentQuestion < s.assessments.length := by
    obtain ⟨h, -⟩ := List.get?_eq_some.mp ha
    exact h
  have hlen : s.assessments.length ≠ 0 := by omega
  simp only [handleAnswerSubmit, progressData, if_neg hne, ha]
  refine ⟨_, _, rfl, rfl, ?_, rfl, rfl, rfl, ?_, ?_, rfl, ?_⟩
  · exact beq_iff_eq
  · by_cases h : s.selectedAnswer = a.correct_answer
    · constructor
      · intro _
        exact h
      · intro _
        simp [h]
    · simp only [beq_eq_false_iff_ne.mpr h, Bool.false_eq_true, if_false]
      constructor
      · intro hcon
        exact absurd hcon (by omega)
      · intro hcon
        exact absurd hcon h
  · by_cases h : s.selectedAnswer = a.correct_answer
    · constructor
      · intro hcon
        simp only [h, beq_self_eq_true, if_true] at hcon
        exact absurd hcon (by omega)
      · intro hcon
        exact absurd h hcon
    · constructor
      · intro _
        exact h
      · intro _
        simp [beq_eq_false_iff_ne.mpr h]
  · rw [jsRound_eq_round _ _ hlen]
    congr 1
    push_cast
    ring

/-- C8 witness: a one-question session with a non-empty correct answer
selected. -/
theorem handleAnswerSubmit_spec_witness :
    ∃ att pd,
      (handleAnswerSubmit ⟨"u", "l", "c", [⟨"a1", "x"⟩], 0, "x", false, none, false, 0, 0⟩ 5).2.1
        = some att
      ∧ (handleAnswerSubmit ⟨"u", "l", "c", [⟨"a1", "x"⟩], 0, "x", false, none, false, 0, 0⟩ 5).2.2
        = some pd
      ∧ (att.is_correct = true ↔ "x" = "x")
      ∧ att.assessment_id = "a1"
      ∧ att.user_answer = "x"
      ∧ att.user_id = "u"
      ∧ ((handleAnswerSubmit ⟨"u", "l", "c", [⟨"a1", "x"⟩], 0, "x", false, none, false, 0, 0⟩ 5).1.score
            = 0 + 1 ↔ "x" = "x")
      ∧ ((handleAnswerSubmit ⟨"u", "l", "c", [⟨"a1", "x"⟩], 0, "x", false, none, false, 0, 0⟩ 5).1.score
            = 0 ↔ "x" ≠ "x")
      ∧ pd.status = "in_progress"
      ∧ (pd.completion_percentage : ℤ) =
          round ((100 * (((0 : ℕ) : ℚ) + 1)) / ((1 : ℕ) : ℚ)) :=
  handleAnswerSubmit_spec ⟨"u", "l", "c", [⟨"a1", "x"⟩], 0, "x", false, none, false, 0, 0⟩ 5
    ⟨"a1", "x"⟩ (by decide) rfl

/-- C1 counterexample: in a one-question quiz session with the (non-empty)
correct answer selected, the answer-submission upsert carries
`completionPercentage = 100` together with `status = in_progress`, so a
progress upsert issued by the session violates
"completionPercentage = 100 iff status = completed". -/
theorem upsert_percent_status_counterexample :
    (handleAnswerSubmit ⟨"u", "l", "c", [⟨"a1", "x"⟩], 0, "x", false, none, false, 0, 0⟩
        1000).2.2.map ProgressData.completion_percentage = some 100
    ∧ (handleAnswerSubmit ⟨"u", "l", "c", [⟨"a1", "x"⟩], 0, "x", false, none, false, 0, 0⟩
        1000).2.2.map ProgressData.status = some "in_progress"
    ∧ "in_progress" ≠ "completed" := by decide

/-- C1 (amended): the upserts issued at session open, at the terminal
advance and at mark-complete satisfy `completionPercentage = 100` iff
`status = completed`; an answer-submission upsert instead always carries
`status = in_progress`, even when its recomputed percentage is 100 (on the
last question), so for those only the completed-implies-100 direction
survives (vacuously). -/
theorem upsert_percent_status (s : Session) (now : ℕ) :
    ((openProgressUpsert s now).completion_percentage = 100 ↔
      (openProgressUpsert s now).status = "completed")
    ∧ ((handleCompleteLesson s now).completion_percentage = 100 ↔
      (handleCompleteLesson s now).status = "completed")
    ∧ (∀ pd, (handleNextQuestion s now).2 = some pd →
        (pd.completion_percentage = 100 ↔ pd.status = "completed"))
    ∧ (∀ pd, (handleAnswerSubmit s now).2.2 = some pd → pd.status = "in_progress") := by
  refine ⟨?_, ?_, ?_, ?_⟩
  · constructor
    · intro h
      have h0 : (0 : ℕ) = 100 := h
      exact absurd h0 (by decide)
    · intro h
      have h0 : "in_progress" = "completed" := h
      exact absurd h0 (by decide)
  · constructor
    · intro _
      rfl
    · intro _
      rfl
  · intro pd hpd
    unfold handleNextQuestion at hpd
    split at hpd
    · exact absurd hpd (by simp)
    · simp only [Option.some.injEq] at hpd
      subst hpd
      constructor
      · intro _
        rfl
      · intro _
        rfl
  · intro pd hpd
    unfold handleAnswerSubmit at hpd
    split at hpd
    · exact absurd hpd (by simp)
    · split at hpd
      · exact absurd hpd (by simp)
      · simp only [Option.some.injEq] at hpd
        subst hpd
        rfl

/-- C1 witness: the submit conjunct applied to the concrete one-question
session whose upsert carries percentage 100. -/
theorem upsert_percent_status_witness :
    (progressData "u" "l" "c" 0 1000 "in_progress" 100).status = "in_progress" :=
  (upsert_percent_status ⟨"u", "l", "c", [⟨"a1", "x"⟩], 0, "x", false, none, false, 0, 0⟩
      1000).2.2.2
    (progressData "u" "l" "c" 0 1000 "in_progress" 100) (by decide)

/-- C3 counterexample: after 90000 ms (1.5 minutes) the progress payload
stores `timeSpentMinutes = 2`; truncation (flooring) of the elapsed minutes,
as the claim states, would give 1. -/
theorem timeSpent_not_floor :
    (progressData "u" "l" "c" 0 90000 "in_progress" 0).time_spent_minutes = 2
    ∧ (progressData "u" "l" "c" 0 90000 "in_progress" 0).time_spent_minutes
        ≠ (90000 - 0) / 60000
    ∧ (90000 - 0) / 60000 = 1 := by decide

theorem handleAnswerSubmit_startTime (u : Session) (t : ℕ) :
    (handleAnswerSubmit u t).1.startTime = u.startTime := by
  unfold handleAnswerSubmit
  split
  · rfl
  · split
    · rfl
    · rfl

theorem handleNextQuestion_startTime (u : Session) (t : ℕ) :
    (handleNextQuestion u t).1.startTime = u.startTime := by
  unfold handleNextQuestion
  split
  · rfl
  · rfl

/-- C3 (amended): the `timeSpentMinutes` written in a progress upsert is the
elapsed wall-clock milliseconds over 60000 rounded to the NEAREST minute
(half up, `Math.round`), not floored; the `time_taken_seconds` written in an
attempt record is the elapsed milliseconds over 1000 rounded to the nearest
second; and both use the session's `startTime` fixed at session open — no
handler ever changes `startTime`. -/
theorem time_accounting (s : Session) (now : ℕ) (h : s.startTime ≤ now) :
    (∀ status pct,
      ((progressData s.userId s.lessonId s.courseId s.startTime now
          status pct).time_spent_minutes : ℤ)
        = round (((now : ℚ) - (s.startTime : ℚ)) / 60000))
    ∧ (∀ att, (handleAnswerSubmit s now).2.1 = some att →
        (att.time_taken_seconds : ℤ) = round (((now : ℚ) - (s.startTime : ℚ)) / 1000))
    ∧ (handleAnswerSubmit s now).1.startTime = s.startTime
    ∧ (handleNextQuestion s now).1.startTime = s.startTime
    ∧ (∀ ans tSubmit tNext,
        (answerAndAdvance s ans tSubmit tNext).1.startTime = s.startTime) := by
  refine ⟨?_, ?_, handleAnswerSubmit_startTime s now, handleNextQuestion_startTime s now, ?_⟩
  · intro status pct
    show ((jsRound (now - s.startTime) 60000 : ℕ) : ℤ) = _
    rw [jsRound_eq_round _ _ (by norm_num)]
    congr 1
    rw [Nat.cast_sub h]
    norm_num
  · intro att hatt
    unfold handleAnswerSubmit at hatt
    split at hatt
    · exact absurd hatt (by simp)
    · split at hatt
      · exact absurd hatt (by simp)
      · simp only [Option.some.injEq] at hatt
        subst hatt
        show ((jsRound (now - s.startTime) 1000 : ℕ) : ℤ) = _
        rw [jsRound_eq_round _ _ (by norm_num)]
        congr 1
        rw [Nat.cast_sub h]
        norm_num
  · intro ans tSubmit tNext
    show (handleNextQuestion
      (handleAnswerSubmit { s with selectedAnswer := ans } tSubmit).1 tNext).1.startTime = _
    rw [handleNextQuestion_startTime, handleAnswerSubmit_startTime]

/-- C3 witness: the rounded-minutes characterisation at 90 elapsed
seconds. -/
theorem time_accounting_witness :
    ((progressData "u" "l" "c" 0 90000 "in_progress" 0).time_spent_minutes : ℤ)
      = round ((((90000 : ℕ) : ℚ) - ((0 : ℕ) : ℚ)) / 60000) :=
  (time_accounting ⟨"u", "l", "c", [⟨"a1", "x"⟩], 0, "x", false, none, false, 0, 0⟩
      90000 (by decide)).1 "in_progress" 0

/-- C2 counterexample: one completed record for a two-lesson course — the
dashboard's `getCourseProgress` reports 100 while the course-detail view's
`progressPercentage` reports 50 on the same snapshot, with the course's
progress records and lessons both present, so the three computations are not
the same function. -/
theorem courseCompletion_counterexample :
    getCourseProgress [⟨"p1", "u", "l1", "c", "completed", 100, 0, some 5, 6⟩] "c" = 100
    ∧ detailProgressPercentage
        (List.filter (fun p => p.course_id == "c")
          [⟨"p1", "u", "l1", "c", "completed", 100, 0, some 5, 6⟩])
        [⟨"l1", "c", "quiz"⟩, ⟨"l2", "c", "text"⟩] = 50
    ∧ getCourseProgress [⟨"p1", "u", "l1", "c", "completed", 100, 0, some 5, 6⟩] "c"
        ≠ detailProgressPercentage
            (List.filter (fun p => p.course_id == "c")
              [⟨"p1", "u", "l1", "c", "completed", 100, 0, some 5, 6⟩])
            [⟨"l1", "c", "quiz"⟩, ⟨"l2", "c", "text"⟩] := by decide

/-- C2 (amended): the dashboard (`getCourseProgress`) and the course card
(completed over records passed, where the dashboard passes the records
filtered to the course) compute the same function of the snapshot; the
course-detail view divides by the number of the course's lessons instead of
by the number of its progress records, so it agrees with the other two
exactly on inputs where the course's record count equals its lesson count,
and can differ otherwise. -/
theorem courseCompletion_agreement (ups : List UserProgress) (cid : String) :
    cardProgressPercentage (ups.filter (fun p => p.course_id == cid))
      = getCourseProgress ups cid
    ∧ ∀ lessons : List Lesson,
        (ups.filter (fun p => p.course_id == cid)).length = lessons.length →
        detailProgressPercentage (ups.filter (fun p => p.course_id == cid)) lessons
          = getCourseProgress ups cid := by
  refine ⟨rfl, ?_⟩
  intro lessons hlen
  show (if 0 < lessons.length then
      jsRound (((ups.filter (fun p => p.course_id == cid)).filter
        (fun p => p.status == "completed")).length * 100) lessons.length
    else 0) = _
  rw [← hlen]
  rfl

/-- C2 witness: detail and dashboard agree on a course whose single lesson
has its single (completed) record. -/
theorem courseCompletion_agreement_witness :
    detailProgressPercentage
        (List.filter (fun p => p.course_id == "c")
          [⟨"p1", "u", "l1", "c", "completed", 100, 0, some 5, 6⟩])
        [⟨"l1", "c", "quiz"⟩]
      = getCourseProgress [⟨"p1", "u", "l1", "c", "completed", 100, 0, some 5, 6⟩] "c" :=
  (courseCompletion_agreement [⟨"p1", "u", "l1", "c", "completed", 100, 0, some 5, 6⟩] "c").2
    [⟨"l1", "c", "quiz"⟩] (by decide)

/-- C9: over a quiz of exactly three assessments whose correct answers are
all submitted (each followed by an advance), the final session score is 3,
exactly three `UserAssessmentAttempt` rows are produced, and the writes end
with the terminal upsert `status = completed`, `completionPercentage = 100`
(after the three in-progress submission upserts at 33, 67 and 100
percent). -/
theorem quizRun3_spec (a1 a2 a3 : Assessment) (uid lid cid : String) (t0 now : ℕ)
    (h1 : a1.correct_answer ≠ "") (h2 : a2.correct_answer ≠ "")
    (h3 : a3.correct_answer ≠ "") :
    (runAnswers (initialSession uid lid cid [a1, a2, a3] t0)
        [a1.correct_answer, a2.correct_answer, a3.correct_answer] now).1.score = 3
    ∧ (runAnswers (initialSession uid lid cid [a1, a2, a3] t0)
        [a1.correct_answer, a2.correct_answer, a3.correct_answer] now).1.quizCompleted = true
    ∧ (runAnswers (initialSession uid lid cid [a1, a2, a3] t0)
        [a1.correct_answer, a2.correct_answer, a3.correct_answer] now).2.1
      = [⟨uid, a1.id, a1.correct_answer, true, jsRound (now - t0) 1000⟩,
         ⟨uid, a2.id, a2.correct_answer, true, jsRound (now - t0) 1000⟩,
         ⟨uid, a3.id, a3.correct_answer, true, jsRound (now - t0) 1000⟩]
    ∧ (runAnswers (initialSession uid lid cid [a1, a2, a3] t0)
        [a1.correct_answer, a2.correct_answer, a3.correct_answer] now).2.2
      = [progressData uid lid cid t0 now "in_progress" (jsRound 100 3),
         progressData uid lid cid t0 now "in_progress" (jsRound 200 3),
         progressData uid lid cid t0 now "in_progress" (jsRound 300 3),
         progressData uid lid cid t0 now "completed" 100] := by
  simp [runAnswers, answerAndAdvance, handleAnswerSubmit, handleNextQuestion,
    initialSession, h1, h2, h3]

/-- C9 witness: the all-correct run over three concrete assessments. -/
theorem quizRun3_spec_witness :
    (runAnswers (initialSession "u" "l" "c" [⟨"a1", "x"⟩, ⟨"a2", "y"⟩, ⟨"a3", "z"⟩] 0)
        ["x", "y", "z"] 5).1.score = 3
    ∧ (runAnswers (initialSession "u" "l" "c" [⟨"a1", "x"⟩, ⟨"a2", "y"⟩, ⟨"a3", "z"⟩] 0)
        ["x", "y", "z"] 5).1.quizCompleted = true
    ∧ (runAnswers (initialSession "u" "l" "c" [⟨"a1", "x"⟩, ⟨"a2", "y"⟩, ⟨"a3", "z"⟩] 0)
        ["x", "y", "z"] 5).2.1
      = [⟨"u", "a1", "x", true, jsRound (5 - 0) 1000⟩,
         ⟨"u", "a2", "y", true, jsRound (5 - 0) 1000⟩,
         ⟨"u", "a3", "z", true, jsRound (5 - 0) 1000⟩]
    ∧ (runAnswers (initialSession "u" "l" "c" [⟨"a1", "x"⟩, ⟨"a2", "y"⟩, ⟨"a3", "z"⟩] 0)
        ["x", "y", "z"] 5).2.2
      = [progressData "u" "l" "c" 0 5 "in_progress" (jsRound 100 3),
         progressData "u" "l" "c" 0 5 "in_progress" (jsRound 200 3),
         progressData "u" "l" "c" 0 5 "in_progress" (jsRound 300 3),
         progressData "u" "l" "c" 0 5 "completed" 100] :=
  quizRun3_spec ⟨"a1", "x"⟩ ⟨"a2", "y"⟩ ⟨"a3", "z"⟩ "u" "l" "c" 0 5
    (by decide) (by decide) (by decide)

/-- C10: a progress upsert whose status is not `completed` omits
`completed_at` from its payload (modelled as `none`), so updating an
existing row with it — e.g. re-opening a previously completed lesson, which
sets it back to `in_progress` at 0 percent — overwrites status, percentage,
time and last-accessed but leaves the stored `completed_at` unchanged; and
when a row for `(user, lesson)` exists, the upsert takes the update path on
that row. -/
theorem noncompleted_upsert_preserves_completedAt
    (userId lessonId courseId status : String) (startTime now pct : ℕ)
    (h : status ≠ "completed") :
    (progressData userId lessonId courseId startTime now status pct).completed_at = none
    ∧ (∀ r : UserProgress,
        (applyUpdate r
          (progressData userId lessonId courseId startTime now status pct)).completed_at
            = r.completed_at
        ∧ (applyUpdate r
            (progressData userId lessonId courseId startTime now status pct)).status = status
        ∧ (applyUpdate r
            (progressData userId lessonId courseId startTime now
              status pct)).completion_percentage = pct)
    ∧ (∀ (store : List UserProgress) (newId : String) (existing : UserProgress),
        store.find? (fun r => r.user_id == userId && r.lesson_id == lessonId) = some existing →
        upsertProgress store newId
            (progressData userId lessonId courseId startTime now status pct)
          = store.map (fun r =>
              if r.id == existing.id
              then applyUpdate r (progressData userId lessonId courseId startTime now status pct)
              else r)) := by
  have hnone :
      (progressData userId lessonId courseId startTime now status pct).completed_at = none := by
    show (if status = "completed" then some now else none) = none
    rw [if_neg h]
  refine ⟨hnone, ?_, ?_⟩
  · intro r
    refine ⟨?_, rfl, rfl⟩
    show (match (progressData userId lessonId courseId startTime now
        status pct).completed_at with
      | some t => some t
      | none => r.completed_at) = r.completed_at
    rw [hnone]
  · intro store newId existing hfind
    simp only [upsertProgress, progressData]
    rw [hfind]

/-- C10 witness: re-opening a completed lesson (`in_progress`, 0 percent)
leaves the stored `completed_at` timestamp in place. -/
theorem noncompleted_upsert_preserves_completedAt_witness :
    (applyUpdate ⟨"id1", "u", "l", "c", "completed", 100, 10, some 999, 50⟩
        (progressData "u" "l" "c" 0 1000 "in_progress" 0)).completed_at = some 999 :=
  ((noncompleted_upsert_preserves_completedAt "u" "l" "c" "in_progress" 0 1000 0
      (by decide)).2.1 ⟨"id1", "u", "l", "c", "completed", 100, 10, some 999, 50⟩).1

end AdaptLearn
